import Mathlib

/-!
Verification development for the permission-statement compiler front end
(tokenizer, schema provider, interpreter state machine, value coercion,
statement builder).

The interpreter state machines are translated from
`src/core/parser/interpreter.py` (`coreGo` / `coreInterpret`) and
`src/permissions/parser/interpreter.py` (`permGo` / `permInterpret`);
the statement builder from `src/permissions/parser/builder.py`.
The enumerated vocabularies, the tokenizer, the `Condition` /
`PermissionStatement` value objects and the coercion engine live in
repository modules (`models.py`, `base.py`, `tokenizer.py`,
`coercion_engine.py`) that are not part of the provided sources; those
are modelled from the spec and carry a `Modelled from the spec:` note.
-/

namespace Authed

/-- Modelled from the spec: `Command`: {GIVE, DENY} (models.py is not in the
provided sources; enum string values are taken to be the token spellings). -/
inductive BaseCommand
  | GIVE
  | DENY
deriving DecidableEq, Repr

/-- Modelled from the spec: string-to-enum lookup (`BaseCommand(token)`). -/
def BaseCommand.ofString? (s : String) : Option BaseCommand :=
  if s = "GIVE" then some .GIVE
  else if s = "DENY" then some .DENY
  else none

/-- Modelled from the spec: `AccessType`: {READ, WRITE, DELETE, ...}. -/
inductive AccessType
  | READ
  | WRITE
  | DELETE
deriving DecidableEq, Repr

/-- Modelled from the spec: string-to-enum lookup (`AccessType(token)`). -/
def AccessType.ofString? (s : String) : Option AccessType :=
  if s = "READ" then some .READ
  else if s = "WRITE" then some .WRITE
  else if s = "DELETE" then some .DELETE
  else none

/-- Modelled from the spec: `ResourceType`: registered resource kinds
(e.g. ISSUES, TEAMS, PROJECTS; the interpreter comments also name EMAILS). -/
inductive ResourceType
  | ISSUES
  | TEAMS
  | PROJECTS
  | EMAILS
deriving DecidableEq, Repr

/-- Modelled from the spec: string-to-enum lookup (`ResourceType(token)`). -/
def ResourceType.ofString? (s : String) : Option ResourceType :=
  if s = "ISSUES" then some .ISSUES
  else if s = "TEAMS" then some .TEAMS
  else if s = "PROJECTS" then some .PROJECTS
  else if s = "EMAILS" then some .EMAILS
  else none

/-- Modelled from the spec: `StructuralHelper`: statement-condition
introducers (e.g. WITH, NAMED). -/
inductive StructuralHelper
  | WITH
  | NAMED
deriving DecidableEq, Repr

/-- Modelled from the spec: the enum member's string value (`helper.value`). -/
def StructuralHelper.value : StructuralHelper → String
  | .WITH => "WITH"
  | .NAMED => "NAMED"

/-- Modelled from the spec: string-to-enum lookup (`StructuralHelper(token)`). -/
def StructuralHelper.ofString? (s : String) : Option StructuralHelper :=
  if s = "WITH" then some .WITH
  else if s = "NAMED" then some .NAMED
  else none

/-- Modelled from the spec: `ConditionOperator`: {IS, IS_NOT, CONTAINS,
GREATER_THAN, LESS_THAN, GREATER_OR_EQUAL, LESS_OR_EQUAL}; enum string
values are taken to be the member names. -/
inductive ConditionOperator
  | IS
  | IS_NOT
  | CONTAINS
  | GREATER_THAN
  | LESS_THAN
  | GREATER_OR_EQUAL
  | LESS_OR_EQUAL
deriving DecidableEq, Repr

/-- Modelled from the spec: string-to-enum lookup (`ConditionOperator(token)`);
also stands for membership in `[op.value for op in ConditionOperator]`. -/
def ConditionOperator.ofString? (s : String) : Option ConditionOperator :=
  if s = "IS" then some .IS
  else if s = "IS_NOT" then some .IS_NOT
  else if s = "CONTAINS" then some .CONTAINS
  else if s = "GREATER_THAN" then some .GREATER_THAN
  else if s = "LESS_THAN" then some .LESS_THAN
  else if s = "GREATER_OR_EQUAL" then some .GREATER_OR_EQUAL
  else if s = "LESS_OR_EQUAL" then some .LESS_OR_EQUAL
  else none

/-- Modelled from the spec: `LogicalOperator`: {AND, OR}. -/
inductive LogicalOperator
  | AND
  | OR
deriving DecidableEq, Repr

/-- Modelled from the spec: the enum member's string value. -/
def LogicalOperator.value : LogicalOperator → String
  | .AND => "AND"
  | .OR => "OR"

/-- Modelled from the spec: `DataType`: {STRING, NUMBER, BOOLEAN, TAGS,
EMAIL_ADDRESS}. -/
inductive DataType
  | STRING
  | NUMBER
  | BOOLEAN
  | TAGS
  | EMAIL_ADDRESS
deriving DecidableEq, Repr

instance {ε α : Type} [DecidableEq ε] [DecidableEq α] : DecidableEq (Except ε α) := fun x y =>
  match x, y with
  | .ok a, .ok b => if h : a = b then isTrue (by rw [h]) else isFalse (by simp [h])
  | .error a, .error b => if h : a = b then isTrue (by rw [h]) else isFalse (by simp [h])
  | .ok _, .error _ => isFalse (by simp)
  | .error _, .ok _ => isFalse (by simp)

/-!  Python scalar values and Python numeric-literal parsing.

Condition values in the source are dynamically typed Python values
(`value: Any`): the raw token string, an `int`, a `float`, a `bool`, or a
list of strings (TAGS).  A `float` is kept as the accepted literal text:
no claim depends on IEEE-754 numerics, only on whether `float(token)`
succeeds.  -/

inductive PyValue
  | str (s : String)
  | int (n : Int)
  | float (lit : String)
  | bool (b : Bool)
  | list (xs : List String)
deriving DecidableEq, Repr

/-!  ASCII models of the Python string operations the source uses
(`str.lower`, `str.strip`, `str.split`, membership).  These are written
over `List Char` by structural recursion so that every definition
evaluates inside the kernel; the DSL token vocabulary is ASCII. -/

/-- Python `str.lower()` on an ASCII character. -/
def pyLowerChar (c : Char) : Char :=
  if 'A' ≤ c ∧ c ≤ 'Z' then Char.ofNat (c.toNat + 32) else c

/-- Python `str.lower()` (ASCII). -/
def pyLower (s : String) : String :=
  String.mk (s.toList.map pyLowerChar)

/-- Python `str.strip()` (whitespace at both ends), on characters. -/
def stripChars (cs : List Char) : List Char :=
  ((cs.dropWhile Char.isWhitespace).reverse.dropWhile Char.isWhitespace).reverse

/-- Python `str.strip()`. -/
def pyStrip (s : String) : List Char :=
  stripChars s.toList

/-- Python `value.split(sep)` for a one-character separator, on characters:
splitting never drops empty parts. -/
def splitOnChar (sep : Char) : List Char → List (List Char)
  | [] => [[]]
  | c :: cs =>
    if c = sep then [] :: splitOnChar sep cs
    else
      match splitOnChar sep cs with
      | g :: gs => (c :: g) :: gs
      | [] => [[c]]

/-- Whitespace split (`text.split()` semantics are obtained by dropping the
empty parts afterwards). -/
def splitOnWs : List Char → List (List Char)
  | [] => [[]]
  | c :: cs =>
    if c.isWhitespace then [] :: splitOnWs cs
    else
      match splitOnWs cs with
      | g :: gs => (c :: g) :: gs
      | [] => [[c]]

/-- Consume a maximal run of further digits, allowing single underscores
between digits (Python numeric-literal underscores); returns the rest. -/
def chompMore : List Char → List Char
  | '_' :: c :: cs => if c.isDigit then chompMore cs else '_' :: c :: cs
  | c :: cs => if c.isDigit then chompMore cs else c :: cs
  | [] => []

/-- Consume a digit run that must start with a digit (Python requires
underscores to sit between digits); `none` when the input does not start
with a digit. -/
def chompDigits : List Char → Option (List Char)
  | c :: cs => if c.isDigit then some (chompMore cs) else none
  | [] => none

/-- Numeric value of a run of ASCII digits. -/
def digitsVal (cs : List Char) : Nat :=
  cs.foldl (fun a c => a * 10 + (c.toNat - 48)) 0

/-- Python `int(s)` on a string: optional surrounding whitespace, optional
sign, then a digit run (underscores allowed between digits); `none` models
`ValueError` (ASCII digits only; Python additionally accepts some Unicode
digits, which never occur in the claims). -/
def pyIntOfString? (s : String) : Option Int :=
  let cs := pyStrip s
  let signed : Bool × List Char :=
    match cs with
    | '+' :: r => (false, r)
    | '-' :: r => (true, r)
    | r => (false, r)
  match chompDigits signed.2 with
  | some [] =>
      let n : Nat := digitsVal (signed.2.filter fun c => c ≠ '_')
      some (if signed.1 then -(n : Int) else (n : Int))
  | _ => none

/-- Exponent part of a Python float literal: empty, or `e`/`E`, an optional
sign, and a digit run consuming the whole remainder. -/
def expOk : List Char → Bool
  | [] => true
  | e :: rest =>
    if e = 'e' ∨ e = 'E' then
      let rest' : List Char :=
        match rest with
        | '+' :: r => r
        | '-' :: r => r
        | r => r
      match chompDigits rest' with
      | some [] => true
      | _ => false
    else false

/-- Decimal body of a Python float literal (after the optional sign):
`digits [. [digits]] [exp]` or `. digits [exp]`. -/
def decOk (cs : List Char) : Bool :=
  match chompDigits cs with
  | some rest =>
      match rest with
      | '.' :: r2 =>
          (match chompDigits r2 with
           | some r3 => expOk r3
           | none => expOk r2)
      | _ => expOk rest
  | none =>
      match cs with
      | '.' :: r2 =>
          (match chompDigits r2 with
           | some r3 => expOk r3
           | none => false)
      | _ => false

/-- Whether Python `float(s)` succeeds on the string: optional whitespace
and sign, then a decimal literal or `inf`/`infinity`/`nan`
(case-insensitive). -/
def pyFloatAccepts (s : String) : Bool :=
  let cs := pyStrip s
  let cs :=
    match cs with
    | '+' :: r => r
    | '-' :: r => r
    | r => r
  let low := pyLower (String.mk cs)
  if low = "inf" ∨ low = "infinity" ∨ low = "nan" then true
  else decOk cs

/-!  Data model: the interpreter's condition dictionaries and interpreted
statement (from the `TypedDict` declarations in both interpreter files),
and the final value objects (modelled from the spec, models.py absent). -/

/-- The interpreter's per-condition dictionary (`ConditionDict` TypedDict in
both interpreter files). -/
structure ConditionDict where
  field : String
  operator : ConditionOperator
  value : PyValue
  field_type : DataType
  logical_operator : LogicalOperator
deriving DecidableEq, Repr

/-- The interpreter's result (`InterpretedStatement` TypedDict): the result
dict is created with all five keys present, `command`/`resource_type`
initialised to `None`.  `integration_data` values are opaque metadata;
modelled as string pairs. -/
structure InterpretedStatement where
  command : Option BaseCommand
  access_types : List AccessType
  resource_type : Option ResourceType
  conditions : List ConditionDict
  integration_data : List (String × String)
deriving DecidableEq, Repr

/-- Modelled from the spec: the final `Condition` value object
({field, operator, value, field_type, logical_operator}); its
`logical_operator` defaults to AND ("meaningless (default AND) on
condition 0").  `field_type` is optional in the model (the builder passes
`condition_data.get("field_type")`). -/
structure Condition where
  field : String
  operator : ConditionOperator
  value : PyValue
  field_type : Option DataType := none
  logical_operator : LogicalOperator := .AND
deriving DecidableEq, Repr

/-- Modelled from the spec: the final immutable `PermissionStatement`
{command, access_type: ordered list, resource_type, conditions,
logical_operator (a default/fallback)}. -/
structure PermissionStatement where
  command : BaseCommand
  access_type : List AccessType
  resource_type : ResourceType
  conditions : List Condition
  logical_operator : LogicalOperator := .AND
deriving DecidableEq, Repr

/-- The schema-provider interface as the interpreters consume it
(`map_field`, `get_field_type`, `get_resource_metadata` of
`BaseSchemaProvider`, base.py absent from the sources; the concrete
`SchemaProvider` classes implement it over integration mappings).
`map_field` returns `Optional[str]`; `none` models Python `None`. -/
structure SchemaProvider where
  map_field : StructuralHelper → String → Option String
  get_field_type : String → ResourceType → Option DataType
  get_resource_metadata : ResourceType → List (String × String)

/-- The provider built from no integration mappings (`SchemaProvider({})`):
no helper mapping, no field type, no metadata. -/
def emptySchema : SchemaProvider :=
  { map_field := fun _ _ => none
  , get_field_type := fun _ _ => none
  , get_resource_metadata := fun _ => [] }

/-- A provider whose integrations declare every field as STRING (used to
drive the permissions interpreter past its type-inference step). -/
def stringSchema : SchemaProvider :=
  { map_field := fun _ _ => none
  , get_field_type := fun _ _ => some .STRING
  , get_resource_metadata := fun _ => [] }

/-- Python `x or default` on an `Optional[str]`: `None` and the empty
string are falsy. -/
def pyOr (v : Option String) (d : String) : String :=
  match v with
  | none => d
  | some s => if s = "" then d else s

/-- `Interpreter._infer_data_type` from src/permissions/parser/interpreter.py:
value-based inference (booleans, then `int()`, then `float()`, then `@`,
else STRING).  Note the source signature takes a single `value` parameter. -/
def inferDataType (value : String) : DataType :=
  if pyLower value = "true" ∨ pyLower value = "false" ∨ pyLower value = "yes"
      ∨ pyLower value = "no" ∨ pyLower value = "on" ∨ pyLower value = "off" then
    .BOOLEAN
  else
    match pyIntOfString? value with
    | some _ => .NUMBER
    | none =>
      if pyFloatAccepts value then .NUMBER
      else if value.toList.contains '@' then .EMAIL_ADDRESS
      else .STRING

/-- `Interpreter._convert_value` from src/permissions/parser/interpreter.py:
convert a value string to its data type (BOOLEAN truthy set; NUMBER via
`int` then `float`, falling back to the original string; TAGS by comma
split and trim; everything else identity). -/
def convertValue (value : String) (data_type : DataType) : PyValue :=
  match data_type with
  | .BOOLEAN =>
      .bool (pyLower value = "true" ∨ pyLower value = "yes"
              ∨ pyLower value = "on" ∨ pyLower value = "1")
  | .NUMBER =>
      match pyIntOfString? value with
      | some n => .int n
      | none => if pyFloatAccepts value then .float value else .str value
  | .TAGS =>
      if value.toList.contains ',' then
        .list ((splitOnChar ',' value.toList).map fun cs => String.mk (stripChars cs))
      else .list [value]
  | _ => .str value

/-- Modelled from the spec: `CoercionEngine.coerce` (core/coercion_engine.py
is not in the provided sources).  Built-in conversions per spec section 4.3:
BOOLEAN truthy set {true, yes, on, 1}; NUMBER integer parse, then float
parse, then the original string unchanged; TAGS comma split with trim;
STRING / EMAIL_ADDRESS / other identity.  Coercion never raises. -/
def coerce (value : String) (data_type : DataType) : PyValue :=
  match data_type with
  | .BOOLEAN =>
      .bool (pyLower value = "true" ∨ pyLower value = "yes"
              ∨ pyLower value = "on" ∨ pyLower value = "1")
  | .NUMBER =>
      match pyIntOfString? value with
      | some n => .int n
      | none => if pyFloatAccepts value then .float value else .str value
  | .TAGS =>
      if value.toList.contains ',' then
        .list ((splitOnChar ',' value.toList).map fun cs => String.mk (stripChars cs))
      else .list [value]
  | _ => .str value

/-!  The interpreter state machine. -/

/-- The state variable of `Interpreter.interpret`'s while loop (string
states in the source). -/
inductive IState
  | COMMAND
  | ACCESS_TYPE
  | ACCESS_TO
  | RESOURCE_TYPE
  | CONDITION_START
  | CONDITION_FIELD
  | CONDITION_OPERATOR
  | CONDITION_VALUE
deriving DecidableEq, Repr

/-- Termination rank: the only loop step that does not consume a token is
the CONDITION_FIELD default-field shortcut, which re-processes the same
token in CONDITION_OPERATOR (`continue` without `i += 1`). -/
def IState.rank : IState → Nat
  | .CONDITION_FIELD => 1
  | _ => 0

/-- The `tokens[i + 1]` lookahead in the ACCESS_TYPE state: it only picks
the next state (on `&` the loop continues in ACCESS_TYPE and the `&`
branch consumes the ampersand; on `ACCESS_TO` the state advances;
otherwise the state is unchanged). -/
def accessLookahead (rest : List String) : IState :=
  match rest.head? with
  | some next => if next = "ACCESS_TO" then .ACCESS_TO else .ACCESS_TYPE
  | none => .ACCESS_TYPE

lemma accessLookahead_rank (rest : List String) : (accessLookahead rest).rank = 0 := by
  unfold accessLookahead
  cases rest.head? with
  | none => rfl
  | some next => by_cases h : next = "ACCESS_TO" <;> simp [h, IState.rank]

/-- The `current_condition` dict: keys appear as they are assigned; a
missing key on access is a Python `KeyError` (modelled as an error result,
unreachable from the `COMMAND` start state). -/
structure CurrentCondition where
  helper : Option StructuralHelper := none
  field : Option String := none
  operator : Option ConditionOperator := none
deriving DecidableEq, Repr

/-- The loop-carried state of `Interpreter.interpret`: the result under
construction, `current_condition`, and `current_logical_op`. -/
structure Ctx where
  result : InterpretedStatement
  current : CurrentCondition := {}
  current_logical_op : LogicalOperator := .AND
deriving DecidableEq, Repr

/-- The interpreter's initial configuration (result dict with `command` and
`resource_type` None, empty lists, default logical operator AND). -/
def initCtx : Ctx :=
  { result :=
      { command := none
      , access_types := []
      , resource_type := none
      , conditions := []
      , integration_data := [] } }

/-- Store an operator into `current_condition`. -/
def Ctx.withOp (ctx : Ctx) (o : ConditionOperator) : Ctx :=
  { ctx with current := { ctx.current with operator := some o } }

/-- Store a field into `current_condition`. -/
def Ctx.withField (ctx : Ctx) (f : String) : Ctx :=
  { ctx with current := { ctx.current with field := some f } }

/-- `Interpreter.interpret`'s while loop from
src/core/parser/interpreter.py, as a recursion over the remaining tokens
(index `i` becomes the head of the list; the `tokens[i + 1]` /
`tokens[i + 2]` lookaheads become the first elements of the tail). -/
def coreGo (σ : SchemaProvider) (st : IState) (ts : List String) (ctx : Ctx) :
    Except String InterpretedStatement :=
  match st, ts with
  | _, [] => .ok ctx.result
  | .COMMAND, t :: rest =>
    match BaseCommand.ofString? t with
    | some c =>
        coreGo σ .ACCESS_TYPE rest
          { ctx with result := { ctx.result with command := some c } }
    | none => .error ("Expected a command (GIVE, DENY), got " ++ t)
  | .ACCESS_TYPE, t :: rest =>
    if t = "&" then coreGo σ .ACCESS_TYPE rest ctx
    else
      match AccessType.ofString? t with
      | some a =>
        let ctx' :=
          { ctx with result :=
              { ctx.result with access_types := ctx.result.access_types ++ [a] } }
        coreGo σ (accessLookahead rest) rest ctx'
      | none =>
        if t = "ACCESS_TO" then coreGo σ .RESOURCE_TYPE rest ctx
        else .error ("Expected an access type (READ, WRITE, DELETE) or ACCESS TO, got " ++ t)
  | .ACCESS_TO, t :: rest =>
    if t = "ACCESS_TO" then coreGo σ .RESOURCE_TYPE rest ctx
    else .error ("Expected ACCESS TO, got " ++ t)
  | .RESOURCE_TYPE, t :: rest =>
    match ResourceType.ofString? t with
    | some r =>
        coreGo σ .CONDITION_START rest
          { ctx with result :=
              { ctx.result with
                  resource_type := some r
                , integration_data := σ.get_resource_metadata r } }
    | none => .error ("Expected a resource type, got " ++ t)
  | .CONDITION_START, t :: rest =>
    -- `if i == len(tokens) - 1: break`: the final token is never examined.
    if rest.isEmpty then .ok ctx.result
    else
      match StructuralHelper.ofString? t with
      | some h =>
          coreGo σ .CONDITION_FIELD rest
            { ctx with current := { helper := some h, field := none, operator := none } }
      | none =>
        if t = "AND" then
          coreGo σ .CONDITION_START rest { ctx with current_logical_op := .AND }
        else if t = "OR" then
          coreGo σ .CONDITION_START rest { ctx with current_logical_op := .OR }
        else
          .error ("Expected a structural helper (WITH, NAMED, etc.) or end of statement, got " ++ t)
  | .CONDITION_FIELD, t :: rest =>
    if t = "=" ∨ (ConditionOperator.ofString? t).isSome then
      -- default-field shortcut; the same token is re-processed as the
      -- operator (`continue` without `i += 1`).
      match ctx.current.helper with
      | none => .error "KeyError: helper"
      | some h =>
          coreGo σ .CONDITION_OPERATOR (t :: rest)
            (Ctx.withField ctx (pyOr (σ.map_field h "") (pyLower h.value)))
    else
      -- normal case: the token is a field name; `_map_field_from_helper`.
      match ctx.current.helper with
      | none => .error "KeyError: helper"
      | some h =>
          coreGo σ .CONDITION_OPERATOR rest
            (Ctx.withField ctx (pyOr (σ.map_field h t) (pyLower t)))
  | .CONDITION_OPERATOR, t :: rest =>
    -- `=` is treated as IS, then the three-token compounds, then the
    -- two-token compounds, then the single-token operators.
    if t = "=" then coreGo σ .CONDITION_VALUE rest (Ctx.withOp ctx .IS)
    else
      match rest with
      | a :: b :: r2 =>
        if (t = "GREATER" ∨ t = "LESS") ∧ a = "OR" ∧ b = "EQUAL" then
          coreGo σ .CONDITION_VALUE r2
            (Ctx.withOp ctx (if t = "GREATER" then .GREATER_OR_EQUAL else .LESS_OR_EQUAL))
        else if t = "IS" ∧ a = "NOT" then
          coreGo σ .CONDITION_VALUE (b :: r2) (Ctx.withOp ctx .IS_NOT)
        else if (t = "GREATER" ∨ t = "LESS") ∧ a = "THAN" then
          coreGo σ .CONDITION_VALUE (b :: r2)
            (Ctx.withOp ctx (if t = "GREATER" then .GREATER_THAN else .LESS_THAN))
        else
          match ConditionOperator.ofString? t with
          | some o => coreGo σ .CONDITION_VALUE (a :: b :: r2) (Ctx.withOp ctx o)
          | none => .error ("Expected a condition operator (IS, CONTAINS, etc.), got " ++ t)
      | [a] =>
        if t = "IS" ∧ a = "NOT" then
          coreGo σ .CONDITION_VALUE [] (Ctx.withOp ctx .IS_NOT)
        else if (t = "GREATER" ∨ t = "LESS") ∧ a = "THAN" then
          coreGo σ .CONDITION_VALUE []
            (Ctx.withOp ctx (if t = "GREATER" then .GREATER_THAN else .LESS_THAN))
        else
          match ConditionOperator.ofString? t with
          | some o => coreGo σ .CONDITION_VALUE [a] (Ctx.withOp ctx o)
          | none => .error ("Expected a condition operator (IS, CONTAINS, etc.), got " ++ t)
      | [] =>
        match ConditionOperator.ofString? t with
        | some o => coreGo σ .CONDITION_VALUE [] (Ctx.withOp ctx o)
        | none => .error ("Expected a condition operator (IS, CONTAINS, etc.), got " ++ t)
  | .CONDITION_VALUE, t :: rest =>
    match ctx.current.field with
    | none => .error "KeyError: field"
    | some f =>
      match ctx.result.resource_type with
      | none =>
          -- unreachable from the COMMAND start state: a resource type is
          -- always stored before any condition state is entered.
          .error "TypeError: resource_type is None"
      | some r =>
        let ft : DataType :=
          match σ.get_field_type f r with
          | some d => d
          | none => .STRING  -- "Default to STRING if field_type is None"
        let conv := coerce t ft
        match ctx.current.operator with
        | none => .error "KeyError: operator"
        | some o =>
          let res' :=
            { ctx.result with conditions :=
                ctx.result.conditions ++
                  [{ field := f, operator := o, value := conv, field_type := ft
                   , logical_operator := ctx.current_logical_op }] }
          let ctx' : Ctx :=
            { result := res', current := {}, current_logical_op := ctx.current_logical_op }
          match rest with
          | next :: r1 =>
            if next = "AND" then
              coreGo σ .CONDITION_START r1 { ctx' with current_logical_op := .AND }
            else if next = "OR" then
              coreGo σ .CONDITION_START r1 { ctx' with current_logical_op := .OR }
            else coreGo σ .CONDITION_START (next :: r1) ctx'
          | [] => .ok res'
termination_by ts.length * 2 + st.rank
decreasing_by
  all_goals try simp only [accessLookahead_rank]
  all_goals try simp [IState.rank]
  all_goals omega

/-- `Interpreter.interpret` from src/core/parser/interpreter.py: raises on
an empty token list, otherwise runs the state machine from `COMMAND`. -/
def coreInterpret (σ : SchemaProvider) (tokens : List String) :
    Except String InterpretedStatement :=
  if tokens.isEmpty then .error "No tokens to interpret"
  else coreGo σ .COMMAND tokens initCtx

/-- `Interpreter.interpret`'s while loop from
src/permissions/parser/interpreter.py.  It differs from the core variant
in three places: `CONDITION_FIELD` has no default-field shortcut and maps
the token via `_map_field_from_helper` (which, called without a
`resource_type`, returns `field_token.lower()` without consulting the
schema); `CONDITION_OPERATOR` has no `=` case; and `CONDITION_VALUE`,
when the schema yields no field type, calls
`self._infer_data_type(current_condition["field"], token)` even though
`_infer_data_type(self, value)` accepts a single argument, which raises
`TypeError` (modelled as the error below). -/
def permGo (σ : SchemaProvider) (st : IState) (ts : List String) (ctx : Ctx) :
    Except String InterpretedStatement :=
  match st, ts with
  | _, [] => .ok ctx.result
  | .COMMAND, t :: rest =>
    match BaseCommand.ofString? t with
    | some c =>
        permGo σ .ACCESS_TYPE rest
          { ctx with result := { ctx.result with command := some c } }
    | none => .error ("Expected a command (GIVE, DENY), got " ++ t)
  | .ACCESS_TYPE, t :: rest =>
    if t = "&" then permGo σ .ACCESS_TYPE rest ctx
    else
      match AccessType.ofString? t with
      | some a =>
        let ctx' :=
          { ctx with result :=
              { ctx.result with access_types := ctx.result.access_types ++ [a] } }
        permGo σ (accessLookahead rest) rest ctx'
      | none =>
        if t = "ACCESS_TO" then permGo σ .RESOURCE_TYPE rest ctx
        else .error ("Expected an access type (READ, WRITE, DELETE) or ACCESS TO, got " ++ t)
  | .ACCESS_TO, t :: rest =>
    if t = "ACCESS_TO" then permGo σ .RESOURCE_TYPE rest ctx
    else .error ("Expected ACCESS TO, got " ++ t)
  | .RESOURCE_TYPE, t :: rest =>
    match ResourceType.ofString? t with
    | some r =>
        permGo σ .CONDITION_START rest
          { ctx with result :=
              { ctx.result with
                  resource_type := some r
                , integration_data := σ.get_resource_metadata r } }
    | none => .error ("Expected a resource type, got " ++ t)
  | .CONDITION_START, t :: rest =>
    if rest.isEmpty then .ok ctx.result
    else
      match StructuralHelper.ofString? t with
      | some h =>
          permGo σ .CONDITION_FIELD rest
            { ctx with current := { helper := some h, field := none, operator := none } }
      | none =>
        if t = "AND" then
          permGo σ .CONDITION_START rest { ctx with current_logical_op := .AND }
        else if t = "OR" then
          permGo σ .CONDITION_START rest { ctx with current_logical_op := .OR }
        else
          .error ("Expected a structural helper (WITH, NAMED, etc.) or end of statement, got " ++ t)
  | .CONDITION_FIELD, t :: rest =>
    match ctx.current.helper with
    | none => .error "KeyError: helper"
    | some _ => permGo σ .CONDITION_OPERATOR rest (Ctx.withField ctx (pyLower t))
  | .CONDITION_OPERATOR, t :: rest =>
    match rest with
    | a :: b :: r2 =>
      if (t = "GREATER" ∨ t = "LESS") ∧ a = "OR" ∧ b = "EQUAL" then
        permGo σ .CONDITION_VALUE r2
          (Ctx.withOp ctx (if t = "GREATER" then .GREATER_OR_EQUAL else .LESS_OR_EQUAL))
      else if t = "IS" ∧ a = "NOT" then
        permGo σ .CONDITION_VALUE (b :: r2) (Ctx.withOp ctx .IS_NOT)
      else if (t = "GREATER" ∨ t = "LESS") ∧ a = "THAN" then
        permGo σ .CONDITION_VALUE (b :: r2)
          (Ctx.withOp ctx (if t = "GREATER" then .GREATER_THAN else .LESS_THAN))
      else
        match ConditionOperator.ofString? t with
        | some o => permGo σ .CONDITION_VALUE (a :: b :: r2) (Ctx.withOp ctx o)
        | none => .error ("Expected a condition operator (IS, CONTAINS, etc.), got " ++ t)
    | [a] =>
      if t = "IS" ∧ a = "NOT" then
        permGo σ .CONDITION_VALUE [] (Ctx.withOp ctx .IS_NOT)
      else if (t = "GREATER" ∨ t = "LESS") ∧ a = "THAN" then
        permGo σ .CONDITION_VALUE []
          (Ctx.withOp ctx (if t = "GREATER" then .GREATER_THAN else .LESS_THAN))
      else
        match ConditionOperator.ofString? t with
        | some o => permGo σ .CONDITION_VALUE [a] (Ctx.withOp ctx o)
        | none => .error ("Expected a condition operator (IS, CONTAINS, etc.), got " ++ t)
    | [] =>
      match ConditionOperator.ofString? t with
      | some o => permGo σ .CONDITION_VALUE [] (Ctx.withOp ctx o)
      | none => .error ("Expected a condition operator (IS, CONTAINS, etc.), got " ++ t)
  | .CONDITION_VALUE, t :: rest =>
    match ctx.current.field with
    | none => .error "KeyError: field"
    | some f =>
      match ctx.result.resource_type with
      | none => .error "TypeError: resource_type is None"
      | some r =>
        match σ.get_field_type f r with
        | none =>
            -- the buggy two-argument call to the one-parameter method:
            .error "TypeError: Interpreter._infer_data_type() takes 2 positional arguments but 3 were given"
        | some ft =>
          let conv := convertValue t ft
          match ctx.current.operator with
          | none => .error "KeyError: operator"
          | some o =>
            let res' :=
              { ctx.result with conditions :=
                  ctx.result.conditions ++
                    [{ field := f, operator := o, value := conv, field_type := ft
                     , logical_operator := ctx.current_logical_op }] }
            let ctx' : Ctx :=
              { result := res', current := {}, current_logical_op := ctx.current_logical_op }
            match rest with
            | next :: r1 =>
              if next = "AND" then
                permGo σ .CONDITION_START r1 { ctx' with current_logical_op := .AND }
              else if next = "OR" then
                permGo σ .CONDITION_START r1 { ctx' with current_logical_op := .OR }
              else permGo σ .CONDITION_START (next :: r1) ctx'
            | [] => .ok res'
termination_by ts.length * 2 + st.rank
decreasing_by
  all_goals try simp only [accessLookahead_rank]
  all_goals try simp [IState.rank]
  all_goals omega

/-- `Interpreter.interpret` from src/permissions/parser/interpreter.py. -/
def permInterpret (σ : SchemaProvider) (tokens : List String) :
    Except String InterpretedStatement :=
  if tokens.isEmpty then .error "No tokens to interpret"
  else permGo σ .COMMAND tokens initCtx

/-- `SimpleStatementBuilder.build` from src/permissions/parser/builder.py:
validate command / access_types / resource_type, then build the
`PermissionStatement`.  Each `Condition` is constructed from `field`,
`operator`, `value` and `field_type` only; `logical_operator` is not
passed and takes the model default AND, and the statement-level
`logical_operator` is `interpreted_data.get("logical_operator", AND)`,
which is always the default AND since the interpreted statement carries
no such key. -/
def SimpleStatementBuilder.build (d : InterpretedStatement) :
    Except String PermissionStatement :=
  match d.command with
  | none => .error "Missing command in interpreted data"
  | some cmd =>
    if d.access_types.isEmpty then .error "Missing access types in interpreted data"
    else
      match d.resource_type with
      | none => .error "Missing resource type in interpreted data"
      | some r =>
        .ok
          { command := cmd
          , access_type := d.access_types
          , resource_type := r
          , conditions := d.conditions.map fun cd =>
              { field := cd.field, operator := cd.operator, value := cd.value
              , field_type := some cd.field_type, logical_operator := .AND }
          , logical_operator := .AND }

/-- Modelled from the spec: the tokenizer (tokenizer.py absent from the
provided sources): split on whitespace, merge the adjacent pair
`ACCESS` `TO` into `ACCESS_TO`, fail on empty input. -/
def mergeAccessTo : List String → List String
  | "ACCESS" :: "TO" :: rest => "ACCESS_TO" :: mergeAccessTo rest
  | t :: rest => t :: mergeAccessTo rest
  | [] => []

/-- Modelled from the spec: `tokenize(text)`; `ParseError(EmptyInput)` on
whitespace-only text. -/
def tokenize (text : String) : Except String (List String) :=
  let ts := ((splitOnWs text.toList).map String.mk).filter (fun s => s ≠ "")
  if ts.isEmpty then .error "EmptyInput"
  else .ok (mergeAccessTo ts)

/-- The parser facade over the permissions components
(src/permissions/parser/parser.py): tokenize, interpret, build,
propagating the first failure. -/
def permParse (σ : SchemaProvider) (text : String) :
    Except String PermissionStatement := do
  let ts ← tokenize text
  let d ← permInterpret σ ts
  SimpleStatementBuilder.build d

end Authed

namespace Authed

/-!  Claim-side definitions and helper lemmas. -/

/-- Operator resolution in the CONDITION_OPERATOR state as the spec words
it (claim side, for refinement): `GREATER`/`LESS` followed by `OR EQUAL`
consumes two extra tokens; `IS` followed by `NOT`, and `GREATER`/`LESS`
followed by `THAN`, consume one extra token; otherwise the single token
must itself be a valid operator.  Returns the resolved operator and the
remaining tokens, or `none` when the token is not a valid operator. -/
def resolveOperatorSpec (t : String) (rest : List String) :
    Option (ConditionOperator × List String) :=
  match rest with
  | a :: b :: r2 =>
    if (t = "GREATER" ∨ t = "LESS") ∧ a = "OR" ∧ b = "EQUAL" then
      some (if t = "GREATER" then .GREATER_OR_EQUAL else .LESS_OR_EQUAL, r2)
    else if t = "IS" ∧ a = "NOT" then some (.IS_NOT, b :: r2)
    else if (t = "GREATER" ∨ t = "LESS") ∧ a = "THAN" then
      some (if t = "GREATER" then .GREATER_THAN else .LESS_THAN, b :: r2)
    else (ConditionOperator.ofString? t).map (fun o => (o, a :: b :: r2))
  | [a] =>
    if t = "IS" ∧ a = "NOT" then some (.IS_NOT, [])
    else if (t = "GREATER" ∨ t = "LESS") ∧ a = "THAN" then
      some (if t = "GREATER" then .GREATER_THAN else .LESS_THAN, [])
    else (ConditionOperator.ofString? t).map (fun o => (o, [a]))
  | [] => (ConditionOperator.ofString? t).map (fun o => (o, []))

/-- The interpreter configuration right after GIVE READ ACCESS_TO ISSUES
has been consumed (used to state the condition-chain lemma for C3). -/
def baseCtx : Ctx :=
  { result :=
      { command := some .GIVE
      , access_types := [.READ]
      , resource_type := some .ISSUES
      , conditions := []
      , integration_data := [] } }

/-- Token rendering of a chain of further conditions, each joined by the
given combinator: `j WITH A IS 1` per element. -/
def joinChain : List LogicalOperator → List String
  | [] => []
  | j :: js => j.value :: "WITH" :: "A" :: "IS" :: "1" :: joinChain js

/-- The condition dictionary the interpreter produces for `WITH A IS 1`
under the empty provider, tagged with the pending logical operator. -/
def chainCondition (lo : LogicalOperator) : ConditionDict :=
  { field := "a", operator := .IS, value := .str "1", field_type := .STRING
  , logical_operator := lo }

/-- The pending logical operator after a run of leading AND/OR tokens has
been consumed in CONDITION_START: the last combinator of the run, or the
starting value when the run is empty. -/
def pendingAfter : LogicalOperator → List LogicalOperator → LogicalOperator
  | p, [] => p
  | _, j :: js => pendingAfter j js

lemma permGo_condOp_eq (σ : SchemaProvider) (t : String) (rest : List String) (ctx : Ctx) :
    permGo σ .CONDITION_OPERATOR (t :: rest) ctx =
      match resolveOperatorSpec t rest with
      | some (o, r) => permGo σ .CONDITION_VALUE r (Ctx.withOp ctx o)
      | none => .error ("Expected a condition operator (IS, CONTAINS, etc.), got " ++ t) := by
  rcases rest with _ | ⟨a, _ | ⟨b, r2⟩⟩
  · simp only [resolveOperatorSpec]
    cases h : ConditionOperator.ofString? t <;> simp [permGo, h]
  · simp only [resolveOperatorSpec]
    by_cases h1 : t = "IS" ∧ a = "NOT"
    · simp [permGo, h1]
    · by_cases h2 : (t = "GREATER" ∨ t = "LESS") ∧ a = "THAN"
      · simp [permGo, h1, h2]
      · cases h : ConditionOperator.ofString? t <;> simp [permGo, h1, h2, h]
  · simp only [resolveOperatorSpec]
    by_cases h0 : (t = "GREATER" ∨ t = "LESS") ∧ a = "OR" ∧ b = "EQUAL"
    · simp [permGo, h0]
    · by_cases h1 : t = "IS" ∧ a = "NOT"
      · simp [permGo, h0, h1]
      · by_cases h2 : (t = "GREATER" ∨ t = "LESS") ∧ a = "THAN"
        · simp [permGo, h0, h1, h2]
        · cases h : ConditionOperator.ofString? t <;> simp [permGo, h0, h1, h2, h]

lemma coreGo_condOp_eq (σ : SchemaProvider) (t : String) (rest : List String) (ctx : Ctx)
    (ht : t ≠ "=") :
    coreGo σ .CONDITION_OPERATOR (t :: rest) ctx =
      match resolveOperatorSpec t rest with
      | some (o, r) => coreGo σ .CONDITION_VALUE r (Ctx.withOp ctx o)
      | none => .error ("Expected a condition operator (IS, CONTAINS, etc.), got " ++ t) := by
  rcases rest with _ | ⟨a, _ | ⟨b, r2⟩⟩
  · simp only [resolveOperatorSpec]
    cases h : ConditionOperator.ofString? t <;> simp [coreGo, ht, h]
  · simp only [resolveOperatorSpec]
    by_cases h1 : t = "IS" ∧ a = "NOT"
    · simp [coreGo, ht, h1]
    · by_cases h2 : (t = "GREATER" ∨ t = "LESS") ∧ a = "THAN"
      · simp [coreGo, ht, h1, h2]
      · cases h : ConditionOperator.ofString? t <;> simp [coreGo, ht, h1, h2, h]
  · simp only [resolveOperatorSpec]
    by_cases h0 : (t = "GREATER" ∨ t = "LESS") ∧ a = "OR" ∧ b = "EQUAL"
    · simp [coreGo, ht, h0]
    · by_cases h1 : t = "IS" ∧ a = "NOT"
      · simp [coreGo, ht, h0, h1]
      · by_cases h2 : (t = "GREATER" ∨ t = "LESS") ∧ a = "THAN"
        · simp [coreGo, ht, h0, h1, h2]
        · cases h : ConditionOperator.ofString? t <;> simp [coreGo, ht, h0, h1, h2, h]

lemma resolveOperatorSpec_ne_eq {t : String} {rest : List String} {p}
    (h : resolveOperatorSpec t rest = some p) : t ≠ "=" := by
  intro he
  subst he
  rcases rest with _ | ⟨a, _ | ⟨b, r2⟩⟩ <;>
    simp [resolveOperatorSpec, ConditionOperator.ofString?] at h



lemma emptySchema_map_field (h : StructuralHelper) (s : String) :
    emptySchema.map_field h s = none := rfl

lemma emptySchema_get_field_type (f : String) (r : ResourceType) :
    emptySchema.get_field_type f r = none := rfl

lemma emptySchema_get_resource_metadata (r : ResourceType) :
    emptySchema.get_resource_metadata r = [] := rfl

lemma c3_entry (ts : List String) :
    coreGo emptySchema .COMMAND ("GIVE" :: "READ" :: "ACCESS_TO" :: "ISSUES" :: ts) initCtx =
      coreGo emptySchema .CONDITION_START ts baseCtx := by
  simp [coreGo, BaseCommand.ofString?, AccessType.ofString?, ResourceType.ofString?,
        accessLookahead, initCtx, baseCtx, emptySchema]

lemma c3_chain (js : List LogicalOperator) : ∀ ctx : Ctx,
    ctx.result.resource_type = some .ISSUES →
    ctx.current.field = some "a" →
    coreGo emptySchema .CONDITION_OPERATOR ("IS" :: "1" :: joinChain js) ctx =
      .ok { ctx.result with conditions :=
              ctx.result.conditions ++
                chainCondition ctx.current_logical_op :: js.map chainCondition } := by
  have hA : pyLower "A" = "a" := rfl
  induction js with
  | nil =>
    intro ctx hr hf
    simp [coreGo, joinChain, ConditionOperator.ofString?, Ctx.withOp,
          emptySchema_get_field_type, coerce, chainCondition, hr, hf]
  | cons j js ih =>
    intro ctx hr hf
    cases j <;>
      simp [coreGo, joinChain, LogicalOperator.value, StructuralHelper.ofString?,
            ConditionOperator.ofString?, Ctx.withField, Ctx.withOp, pyOr,
            emptySchema_map_field, emptySchema_get_field_type, coerce,
            chainCondition, hr, hf, hA, ih]

lemma c3_lead (lead : List LogicalOperator) : ∀ (ctx : Ctx) (tail : List String),
    coreGo emptySchema .CONDITION_START
        (lead.map LogicalOperator.value ++ ("WITH" :: "A" :: "IS" :: "1" :: tail)) ctx =
      coreGo emptySchema .CONDITION_START ("WITH" :: "A" :: "IS" :: "1" :: tail)
        { ctx with current_logical_op := pendingAfter ctx.current_logical_op lead } := by
  induction lead with
  | nil => intro ctx tail; simp [pendingAfter]
  | cons j lead ih =>
    intro ctx tail
    have hne : (lead.map LogicalOperator.value ++
        ("WITH" :: "A" :: "IS" :: "1" :: tail)).isEmpty = false := by
      cases lead <;> simp
    have step : coreGo emptySchema .CONDITION_START
        (j.value :: (lead.map LogicalOperator.value ++ ("WITH" :: "A" :: "IS" :: "1" :: tail))) ctx =
        coreGo emptySchema .CONDITION_START
          (lead.map LogicalOperator.value ++ ("WITH" :: "A" :: "IS" :: "1" :: tail))
          { ctx with current_logical_op := j } := by
      cases j <;> simp [coreGo, hne, StructuralHelper.ofString?, LogicalOperator.value]
    simp only [List.map_cons, List.cons_append, pendingAfter]
    rw [step, ih]

/-- Claim C5: In the CONDITION_OPERATOR state, GREATER or LESS followed by
OR EQUAL resolves to GREATER_OR_EQUAL or LESS_OR_EQUAL consuming two
extra tokens; IS followed by NOT resolves to IS_NOT, and GREATER or LESS
followed by THAN resolves to GREATER_THAN or LESS_THAN, each consuming
one extra token; otherwise the single token must itself be a valid
operator (first conjunct: the permissions interpreter step refines
`resolveOperatorSpec`; the core interpreter additionally maps `=` to IS,
see C6).  In particular GIVE READ ACCESS TO ISSUES WITH PRIORITY GREATER
OR EQUAL 3 resolves the operator to GREATER_OR_EQUAL, consuming the
three-token phrase (second and third conjuncts, on both interpreters). -/
theorem c5_compound_operators :
    (∀ (σ : SchemaProvider) (t : String) (rest : List String) (ctx : Ctx),
        permGo σ .CONDITION_OPERATOR (t :: rest) ctx =
          match resolveOperatorSpec t rest with
          | some (o, r) => permGo σ .CONDITION_VALUE r (Ctx.withOp ctx o)
          | none => .error ("Expected a condition operator (IS, CONTAINS, etc.), got " ++ t))
    ∧ coreInterpret emptySchema
        ["GIVE", "READ", "ACCESS_TO", "ISSUES", "WITH", "PRIORITY", "GREATER", "OR", "EQUAL", "3"] =
        .ok { command := some .GIVE, access_types := [.READ], resource_type := some .ISSUES
            , conditions := [{ field := "priority", operator := .GREATER_OR_EQUAL
                             , value := .str "3", field_type := .STRING
                             , logical_operator := .AND }]
            , integration_data := [] }
    ∧ permParse stringSchema "GIVE READ ACCESS TO ISSUES WITH PRIORITY GREATER OR EQUAL 3" =
        .ok { command := .GIVE, access_type := [.READ], resource_type := .ISSUES
            , conditions := [{ field := "priority", operator := .GREATER_OR_EQUAL
                             , value := .str "3", field_type := some .STRING
                             , logical_operator := .AND }]
            , logical_operator := .AND } := by
  refine ⟨permGo_condOp_eq, ?_, ?_⟩
  · simp [coreInterpret, coreGo, BaseCommand.ofString?, AccessType.ofString?,
          ResourceType.ofString?, StructuralHelper.ofString?, ConditionOperator.ofString?,
          accessLookahead, Ctx.withField, Ctx.withOp, pyOr, coerce, initCtx, emptySchema,
          pyLower, pyLowerChar]
  · have ht : tokenize "GIVE READ ACCESS TO ISSUES WITH PRIORITY GREATER OR EQUAL 3" =
        .ok ["GIVE", "READ", "ACCESS_TO", "ISSUES", "WITH", "PRIORITY", "GREATER", "OR", "EQUAL", "3"] := rfl
    simp [permParse, ht, Bind.bind, Except.bind, permInterpret, permGo,
          BaseCommand.ofString?, AccessType.ofString?, ResourceType.ofString?,
          StructuralHelper.ofString?, ConditionOperator.ofString?, accessLookahead,
          Ctx.withField, Ctx.withOp, convertValue, initCtx, stringSchema,
          SimpleStatementBuilder.build, pyLower, pyLowerChar]

/-- Claim C10: for every token sequence that ends immediately after a recognized
condition operator phrase (no value token follows), interpretation
succeeds without raising, and the incomplete condition (its helper, field
and operator, held in `current_condition`) is omitted from the returned
conditions: the result is exactly the accumulated `ctx.result`.  The
first two conjuncts state this for any configuration of either
interpreter; the last two evaluate both interpreters on a full statement
ending right after IS. -/
theorem c10_trailing_operator_dropped :
    (∀ (σ : SchemaProvider) (t : String) (rest : List String) (ctx : Ctx) (o : ConditionOperator),
        resolveOperatorSpec t rest = some (o, []) →
          permGo σ .CONDITION_OPERATOR (t :: rest) ctx = .ok ctx.result)
    ∧ (∀ (σ : SchemaProvider) (t : String) (rest : List String) (ctx : Ctx) (o : ConditionOperator),
        resolveOperatorSpec t rest = some (o, []) →
          coreGo σ .CONDITION_OPERATOR (t :: rest) ctx = .ok ctx.result)
    ∧ permInterpret emptySchema ["GIVE", "READ", "ACCESS_TO", "ISSUES", "WITH", "PRIORITY", "IS"] =
        .ok { command := some .GIVE, access_types := [.READ], resource_type := some .ISSUES
            , conditions := [], integration_data := [] }
    ∧ coreInterpret emptySchema ["GIVE", "READ", "ACCESS_TO", "ISSUES", "WITH", "PRIORITY", "IS"] =
        .ok { command := some .GIVE, access_types := [.READ], resource_type := some .ISSUES
            , conditions := [], integration_data := [] } := by
  refine ⟨?_, ?_, ?_, ?_⟩
  · intro σ t rest ctx o h
    rw [permGo_condOp_eq, h]
    simp [permGo, Ctx.withOp]
  · intro σ t rest ctx o h
    rw [coreGo_condOp_eq σ t rest ctx (resolveOperatorSpec_ne_eq h), h]
    simp [coreGo, Ctx.withOp]
  · simp [permInterpret, permGo, BaseCommand.ofString?, AccessType.ofString?,
          ResourceType.ofString?, StructuralHelper.ofString?, ConditionOperator.ofString?,
          accessLookahead, Ctx.withField, Ctx.withOp, initCtx, emptySchema, pyLower, pyLowerChar]
  · simp [coreInterpret, coreGo, BaseCommand.ofString?, AccessType.ofString?,
          ResourceType.ofString?, StructuralHelper.ofString?, ConditionOperator.ofString?,
          accessLookahead, Ctx.withField, Ctx.withOp, initCtx, emptySchema, pyLower, pyLowerChar]

/-- Claim C10 witness: concrete instances of the universally quantified parts,
ending right after a single IS and right after the compound IS NOT. -/
theorem c10_witness :
    permGo emptySchema .CONDITION_OPERATOR ["IS"] initCtx = .ok initCtx.result
    ∧ coreGo emptySchema .CONDITION_OPERATOR ["IS", "NOT"] initCtx = .ok initCtx.result := by
  constructor
  · exact c10_trailing_operator_dropped.1 emptySchema "IS" [] initCtx .IS rfl
  · exact c10_trailing_operator_dropped.2.1 emptySchema "IS" ["NOT"] initCtx .IS_NOT rfl


/-- Claim C1 (code-bug evidence): with a provider that resolves no data type for
the condition field, the permissions interpreter raises `TypeError`
(`interpret` passes `field` and `token` to `_infer_data_type`, whose
signature takes a single `value`), instead of inferring the type and
coercing the value; the inference function itself maps "3" to NUMBER and
the NUMBER conversion maps "3" to the integer 3, as the claim states. -/
theorem c1_inference_crash :
    permInterpret emptySchema ["GIVE", "READ", "ACCESS_TO", "ISSUES", "WITH", "PRIORITY", "IS", "3"] =
      .error "TypeError: Interpreter._infer_data_type() takes 2 positional arguments but 3 were given"
    ∧ emptySchema.get_field_type "priority" .ISSUES = none
    ∧ inferDataType "3" = .NUMBER
    ∧ convertValue "3" .NUMBER = .int 3 := by
  refine ⟨?_, rfl, rfl, rfl⟩
  simp [permInterpret, permGo, BaseCommand.ofString?, AccessType.ofString?,
        ResourceType.ofString?, StructuralHelper.ofString?, ConditionOperator.ofString?,
        accessLookahead, Ctx.withField, Ctx.withOp, initCtx, emptySchema, pyLower, pyLowerChar]

/-- Claim C7: coercing a value token to NUMBER first attempts an integer parse,
then a floating-point parse, and on failure of both never raises: the
original string is preserved unchanged; in particular coercing "abc"
yields the string "abc". -/
theorem c7_number_conversion (s : String) (n : Int) :
    (pyIntOfString? s = some n → convertValue s .NUMBER = .int n)
    ∧ (pyIntOfString? s = none → pyFloatAccepts s = true → convertValue s .NUMBER = .float s)
    ∧ (pyIntOfString? s = none → pyFloatAccepts s = false → convertValue s .NUMBER = .str s)
    ∧ convertValue "abc" .NUMBER = .str "abc" := by
  refine ⟨?_, ?_, ?_, rfl⟩
  · intro h; simp [convertValue, h]
  · intro h1 h2; simp [convertValue, h1, h2]
  · intro h1 h2; simp [convertValue, h1, h2]

/-- Claim C7 witness: the three conversion outcomes at concrete tokens. -/
theorem c7_witness :
    convertValue "7" .NUMBER = .int 7
    ∧ convertValue "2.5" .NUMBER = .float "2.5"
    ∧ convertValue "abc" .NUMBER = .str "abc" :=
  ⟨(c7_number_conversion "7" 7).1 (by decide),
   (c7_number_conversion "2.5" 0).2.1 (by decide) (by decide),
   (c7_number_conversion "abc" 0).2.2.1 (by decide) (by decide)⟩

/-- Claim C8: the builder fails if and only if the interpreted statement's
command is missing, its access_types list is empty, or its resource_type
is missing; otherwise it returns a PermissionStatement. -/
theorem c8_builder_validation (d : InterpretedStatement) :
    (∃ ps, SimpleStatementBuilder.build d = .ok ps) ↔
      (d.command ≠ none ∧ d.access_types ≠ [] ∧ d.resource_type ≠ none) := by
  cases hc : d.command <;> cases hr : d.resource_type <;> cases ha : d.access_types <;>
    simp [SimpleStatementBuilder.build, hc, hr, ha]

/-- Claim C2 counterexample: the claim's own example
GIVE READ ACCESS TO ISSUES WITH A IS 1 AND B IS 2 does not yield two
conditions: after the consumed AND, CONDITION_START requires a structural
helper and fails on B (first conjunct).  On the grammatical variant with
OR and an explicit second helper, the interpreter records OR on the
second condition (second conjunct), but the statement built from it
carries the default AND on every condition: the builder does not copy the
interpreter's per-condition logical operator (third conjunct). -/
theorem c2_counterexample :
    permParse stringSchema "GIVE READ ACCESS TO ISSUES WITH A IS 1 AND B IS 2" =
      .error "Expected a structural helper (WITH, NAMED, etc.) or end of statement, got B"
    ∧ permInterpret stringSchema
        ["GIVE", "READ", "ACCESS_TO", "ISSUES", "WITH", "A", "IS", "1", "OR", "WITH", "B", "IS", "2"] =
        .ok { command := some .GIVE, access_types := [.READ], resource_type := some .ISSUES
            , conditions :=
                [ { field := "a", operator := .IS, value := .str "1"
                  , field_type := .STRING, logical_operator := .AND }
                , { field := "b", operator := .IS, value := .str "2"
                  , field_type := .STRING, logical_operator := .OR } ]
            , integration_data := [] }
    ∧ permParse stringSchema "GIVE READ ACCESS TO ISSUES WITH A IS 1 OR WITH B IS 2" =
        .ok { command := .GIVE, access_type := [.READ], resource_type := .ISSUES
            , conditions :=
                [ { field := "a", operator := .IS, value := .str "1"
                  , field_type := some .STRING, logical_operator := .AND }
                , { field := "b", operator := .IS, value := .str "2"
                  , field_type := some .STRING, logical_operator := .AND } ]
            , logical_operator := .AND } := by
  have ht1 : tokenize "GIVE READ ACCESS TO ISSUES WITH A IS 1 AND B IS 2" =
      .ok ["GIVE", "READ", "ACCESS_TO", "ISSUES", "WITH", "A", "IS", "1", "AND", "B", "IS", "2"] := rfl
  have ht2 : tokenize "GIVE READ ACCESS TO ISSUES WITH A IS 1 OR WITH B IS 2" =
      .ok ["GIVE", "READ", "ACCESS_TO", "ISSUES", "WITH", "A", "IS", "1", "OR", "WITH", "B", "IS", "2"] := rfl
  refine ⟨?_, ?_, ?_⟩
  · simp [permParse, ht1, Bind.bind, Except.bind, permInterpret, permGo,
          BaseCommand.ofString?, AccessType.ofString?, ResourceType.ofString?,
          StructuralHelper.ofString?, ConditionOperator.ofString?, accessLookahead,
          Ctx.withField, Ctx.withOp, convertValue, initCtx, stringSchema, pyLower, pyLowerChar]
  · simp [permInterpret, permGo, BaseCommand.ofString?, AccessType.ofString?,
          ResourceType.ofString?, StructuralHelper.ofString?, ConditionOperator.ofString?,
          accessLookahead, Ctx.withField, Ctx.withOp, convertValue, initCtx, stringSchema,
          pyLower, pyLowerChar]
  · simp [permParse, ht2, Bind.bind, Except.bind, permInterpret, permGo,
          BaseCommand.ofString?, AccessType.ofString?, ResourceType.ofString?,
          StructuralHelper.ofString?, ConditionOperator.ofString?, accessLookahead,
          Ctx.withField, Ctx.withOp, convertValue, initCtx, stringSchema,
          SimpleStatementBuilder.build, pyLower, pyLowerChar]

/-- Claim C2 amended: in every successfully built PermissionStatement, each
condition is copied from the interpreted condition by field, operator,
value and field_type only, and carries the Condition default logical
operator AND regardless of the combinator that joined the conditions; the
claim's concrete equality condition[1].logical_operator = AND holds only
because the default coincides with AND (and the claim's example must read
... WITH A IS 1 AND WITH B IS 2 to parse at all, each condition needing
its own helper). -/
theorem c2_amended_builder_default_and (d : InterpretedStatement) (ps : PermissionStatement) :
    SimpleStatementBuilder.build d = .ok ps →
    ps.conditions = d.conditions.map (fun cd =>
      { field := cd.field, operator := cd.operator, value := cd.value
      , field_type := some cd.field_type, logical_operator := .AND }) := by
  intro h
  cases hc : d.command
  · simp [SimpleStatementBuilder.build, hc] at h
  · cases ha : d.access_types
    · simp [SimpleStatementBuilder.build, hc, ha] at h
    · cases hr : d.resource_type
      · simp [SimpleStatementBuilder.build, hc, ha, hr] at h
      · simp [SimpleStatementBuilder.build, hc, ha, hr] at h
        rw [← h]

/-- Claim C2 witness: the builder applied to an interpreted statement whose
condition was joined by OR yields a condition tagged with the default
AND. -/
theorem c2_amended_witness :
    ({ command := .GIVE, access_type := [.READ], resource_type := .ISSUES
     , conditions := [{ field := "b", operator := .IS, value := .str "2"
                      , field_type := some .STRING, logical_operator := .AND }]
     , logical_operator := .AND } : PermissionStatement).conditions =
      [({ field := "b", operator := .IS, value := .str "2", field_type := .STRING
        , logical_operator := .OR } : ConditionDict)].map (fun cd =>
        { field := cd.field, operator := cd.operator, value := cd.value
        , field_type := some cd.field_type, logical_operator := .AND }) :=
  c2_amended_builder_default_and
    { command := some .GIVE, access_types := [.READ], resource_type := some .ISSUES
    , conditions := [{ field := "b", operator := .IS, value := .str "2"
                     , field_type := .STRING, logical_operator := .OR }]
    , integration_data := [] }
    _ rfl

/-- Claim C4 counterexample: a trailing token that matches no grammar (XYZ is
neither a structural helper nor AND/OR) is silently discarded: in
CONDITION_START the final token is never examined and interpretation
succeeds, contradicting "fails immediately ... no token is ever silently
skipped". -/
theorem c4_counterexample :
    StructuralHelper.ofString? "XYZ" = none
    ∧ ("XYZ" : String) ≠ "AND"
    ∧ ("XYZ" : String) ≠ "OR"
    ∧ coreInterpret emptySchema ["GIVE", "READ", "ACCESS_TO", "ISSUES", "XYZ"] =
        .ok { command := some .GIVE, access_types := [.READ], resource_type := some .ISSUES
            , conditions := [], integration_data := [] } := by
  refine ⟨rfl, by decide, by decide, ?_⟩
  simp [coreInterpret, coreGo, BaseCommand.ofString?, AccessType.ofString?,
        ResourceType.ofString?, StructuralHelper.ofString?, accessLookahead, initCtx, emptySchema]

/-- Claim C9 counterexample: the ACCESS_TYPE state accepts access types that are
not joined by `&` (READ WRITE with no ampersand), and a leading `&` before
any access type; both are outside the claimed shape "one or more
AccessType tokens joined by the literal ampersand", yet neither is
rejected. -/
theorem c9_counterexample :
    coreInterpret emptySchema ["GIVE", "READ", "WRITE", "ACCESS_TO", "ISSUES"] =
      .ok { command := some .GIVE, access_types := [.READ, .WRITE], resource_type := some .ISSUES
          , conditions := [], integration_data := [] }
    ∧ coreInterpret emptySchema ["GIVE", "&", "READ", "ACCESS_TO", "ISSUES"] =
      .ok { command := some .GIVE, access_types := [.READ], resource_type := some .ISSUES
          , conditions := [], integration_data := [] } := by
  constructor <;>
    simp [coreInterpret, coreGo, BaseCommand.ofString?, AccessType.ofString?,
          ResourceType.ofString?, accessLookahead, initCtx, emptySchema]


/-- Claim C6: in the CONDITION_FIELD state (core interpreter), when the token
after the structural helper is itself an operator token or the literal
`=`, the field is set to the helper's default (the Schema Provider's
mapping for the helper with an empty token, falling back to the
lower-cased helper name when that is falsy), and the same token is then
re-consumed in CONDITION_OPERATOR (first conjunct); in that state `=`
resolves to the IS operator (second conjunct). -/
theorem c6_default_field_shortcut (σ : SchemaProvider) (t : String) (rest : List String)
    (ctx : Ctx) (h : StructuralHelper)
    (hh : ctx.current.helper = some h)
    (hop : t = "=" ∨ (ConditionOperator.ofString? t).isSome = true) :
    coreGo σ .CONDITION_FIELD (t :: rest) ctx =
      coreGo σ .CONDITION_OPERATOR (t :: rest)
        (Ctx.withField ctx (pyOr (σ.map_field h "") (pyLower h.value)))
    ∧ (∀ ctx2 : Ctx, coreGo σ .CONDITION_OPERATOR ("=" :: rest) ctx2 =
        coreGo σ .CONDITION_VALUE rest (Ctx.withOp ctx2 .IS)) := by
  constructor
  · simp [coreGo, hop, hh]
  · intro ctx2
    rcases rest with _ | ⟨a, _ | ⟨b, r2⟩⟩ <;> simp [coreGo]

/-- Claim C6 witness: `WITH = 5` with the empty provider: the field defaults and
`=` is re-consumed as IS. -/
theorem c6_witness :
    coreGo emptySchema .CONDITION_FIELD ["=", "5"]
        { result := initCtx.result
        , current := { helper := some .WITH, field := none, operator := none }
        , current_logical_op := .AND } =
      coreGo emptySchema .CONDITION_OPERATOR ["=", "5"]
        (Ctx.withField
          { result := initCtx.result
          , current := { helper := some .WITH, field := none, operator := none }
          , current_logical_op := .AND }
          (pyOr (emptySchema.map_field .WITH "") (pyLower (StructuralHelper.value .WITH))))
    ∧ coreGo emptySchema .CONDITION_OPERATOR ["=", "5"] initCtx =
        coreGo emptySchema .CONDITION_VALUE ["5"] (Ctx.withOp initCtx .IS) :=
  ⟨(c6_default_field_shortcut emptySchema "=" ["5"]
      { result := initCtx.result
      , current := { helper := some .WITH, field := none, operator := none }
      , current_logical_op := .AND } .WITH rfl (Or.inl rfl)).1,
   (c6_default_field_shortcut emptySchema "=" ["5"]
      { result := initCtx.result
      , current := { helper := some .WITH, field := none, operator := none }
      , current_logical_op := .AND } .WITH rfl (Or.inl rfl)).2 initCtx⟩

/-- Claim C4 amended: in every state that examines its token, a token that does
not match the state's expected grammar fails immediately with an error
naming the expected grammar and the offending token, with no recovery or
backtracking — except that in CONDITION_START the final token of the
input is never examined (end of statement), so a trailing mismatching
token is silently discarded (sixth conjunct; see also C10 for the dropped
incomplete condition), and compound-operator recognition looks ahead up
to two tokens. -/
theorem c4_mismatch_fails (σ : SchemaProvider) (t : String) (rest : List String) (ctx : Ctx) :
    (BaseCommand.ofString? t = none →
      coreGo σ .COMMAND (t :: rest) ctx =
        .error ("Expected a command (GIVE, DENY), got " ++ t))
    ∧ (t ≠ "&" → AccessType.ofString? t = none → t ≠ "ACCESS_TO" →
      coreGo σ .ACCESS_TYPE (t :: rest) ctx =
        .error ("Expected an access type (READ, WRITE, DELETE) or ACCESS TO, got " ++ t))
    ∧ (t ≠ "ACCESS_TO" →
      coreGo σ .ACCESS_TO (t :: rest) ctx = .error ("Expected ACCESS TO, got " ++ t))
    ∧ (ResourceType.ofString? t = none →
      coreGo σ .RESOURCE_TYPE (t :: rest) ctx = .error ("Expected a resource type, got " ++ t))
    ∧ (rest ≠ [] → StructuralHelper.ofString? t = none → t ≠ "AND" → t ≠ "OR" →
      coreGo σ .CONDITION_START (t :: rest) ctx =
        .error ("Expected a structural helper (WITH, NAMED, etc.) or end of statement, got " ++ t))
    ∧ (coreGo σ .CONDITION_START [t] ctx = .ok ctx.result)
    ∧ (ConditionOperator.ofString? t = none → t ≠ "=" →
      ((t = "GREATER" ∨ t = "LESS") →
        rest.take 2 ≠ ["OR", "EQUAL"] ∧ rest.head? ≠ some "THAN") →
      coreGo σ .CONDITION_OPERATOR (t :: rest) ctx =
        .error ("Expected a condition operator (IS, CONTAINS, etc.), got " ++ t)) := by
  refine ⟨?_, ?_, ?_, ?_, ?_, ?_, ?_⟩
  · intro h; simp [coreGo, h]
  · intro h1 h2 h3; simp [coreGo, h1, h2, h3]
  · intro h; simp [coreGo, h]
  · intro h; simp [coreGo, h]
  · intro h0 h1 h2 h3
    rcases rest with _ | ⟨x, xs⟩
    · exact absurd rfl h0
    · simp [coreGo, h1, h2, h3]
  · simp [coreGo]
  · intro h1 h2 h3
    rw [coreGo_condOp_eq σ t rest ctx h2]
    have hnone : resolveOperatorSpec t rest = none := by
      rcases rest with _ | ⟨a, _ | ⟨b, r2⟩⟩
      · simp [resolveOperatorSpec, h1]
      · have hno2 : ¬(t = "IS" ∧ a = "NOT") := by
          rintro ⟨ht, _⟩; subst ht; simp [ConditionOperator.ofString?] at h1
        have hno3 : ¬((t = "GREATER" ∨ t = "LESS") ∧ a = "THAN") := by
          rintro ⟨hg, hTh⟩; exact (h3 hg).2 (by simp [hTh])
        simp [resolveOperatorSpec, h1, hno2, hno3]
      · have hno0 : ¬((t = "GREATER" ∨ t = "LESS") ∧ a = "OR" ∧ b = "EQUAL") := by
          rintro ⟨hg, ha, hb⟩; exact (h3 hg).1 (by simp [ha, hb])
        have hno2 : ¬(t = "IS" ∧ a = "NOT") := by
          rintro ⟨ht, _⟩; subst ht; simp [ConditionOperator.ofString?] at h1
        have hno3 : ¬((t = "GREATER" ∨ t = "LESS") ∧ a = "THAN") := by
          rintro ⟨hg, hTh⟩; exact (h3 hg).2 (by simp [hTh])
        simp [resolveOperatorSpec, h1, hno0, hno2, hno3]
    rw [hnone]

/-- Claim C4 witness: the mismatch errors at the token FOO in three states. -/
theorem c4_witness :
    coreGo emptySchema .COMMAND ["FOO"] initCtx =
      .error "Expected a command (GIVE, DENY), got FOO"
    ∧ coreGo emptySchema .RESOURCE_TYPE ["FOO"] initCtx =
      .error "Expected a resource type, got FOO"
    ∧ coreGo emptySchema .CONDITION_OPERATOR ["FOO"] initCtx =
      .error "Expected a condition operator (IS, CONTAINS, etc.), got FOO" :=
  ⟨(c4_mismatch_fails emptySchema "FOO" [] initCtx).1 rfl,
   (c4_mismatch_fails emptySchema "FOO" [] initCtx).2.2.2.1 rfl,
   (c4_mismatch_fails emptySchema "FOO" [] initCtx).2.2.2.2.2.2 rfl (by decide) (by decide)⟩

lemma accessOfString_cases {u : String} {a : AccessType}
    (h : AccessType.ofString? u = some a) : u = "READ" ∨ u = "WRITE" ∨ u = "DELETE" := by
  by_cases h1 : u = "READ"
  · exact Or.inl h1
  · by_cases h2 : u = "WRITE"
    · exact Or.inr (Or.inl h2)
    · by_cases h3 : u = "DELETE"
      · exact Or.inr (Or.inr h3)
      · simp [AccessType.ofString?, h1, h2, h3] at h

/-- Claim C9 amended: the ACCESS_TYPE state accepts any sequence of tokens each
of which is an AccessType or the literal `&` (ampersands act as skippable
separators anywhere, and access types need not be `&`-joined), terminated
by ACCESS_TO; it collects the access types in order and moves on to
RESOURCE_TYPE.  A token that is none of AccessType, `&`, ACCESS_TO is
rejected (that part is the second ACCESS_TYPE conjunct of
`c4_mismatch_fails`). -/
theorem c9_amended_access_sequence (σ : SchemaProvider) (pre rest : List String) (ctx : Ctx)
    (hpre : ∀ u ∈ pre, u = "&" ∨ (AccessType.ofString? u).isSome = true) :
    coreGo σ .ACCESS_TYPE (pre ++ "ACCESS_TO" :: rest) ctx =
      coreGo σ .RESOURCE_TYPE rest
        { ctx with result := { ctx.result with access_types :=
            ctx.result.access_types ++ pre.filterMap AccessType.ofString? } } := by
  induction pre generalizing ctx with
  | nil => simp [coreGo, AccessType.ofString?]
  | cons u pre ih =>
    have hu := hpre u (by simp)
    have hpre' : ∀ v ∈ pre, v = "&" ∨ (AccessType.ofString? v).isSome = true := by
      intro v hv; exact hpre v (by simp [hv])
    rcases hu with hu | hu
    · subst hu
      rw [List.cons_append]
      have : AccessType.ofString? "&" = none := rfl
      simp only [List.filterMap_cons, this]
      rw [show coreGo σ .ACCESS_TYPE ("&" :: (pre ++ "ACCESS_TO" :: rest)) ctx =
            coreGo σ .ACCESS_TYPE (pre ++ "ACCESS_TO" :: rest) ctx by simp [coreGo]]
      exact ih ctx hpre'
    · obtain ⟨a, ha⟩ := Option.isSome_iff_exists.mp hu
      have hne : u ≠ "&" := by
        rcases accessOfString_cases ha with h | h | h <;> subst h <;> decide
      rw [List.cons_append]
      simp only [List.filterMap_cons, ha]
      rw [show coreGo σ .ACCESS_TYPE (u :: (pre ++ "ACCESS_TO" :: rest)) ctx =
            coreGo σ (accessLookahead (pre ++ "ACCESS_TO" :: rest))
              (pre ++ "ACCESS_TO" :: rest)
              { ctx with result := { ctx.result with access_types :=
                  ctx.result.access_types ++ [a] } } by simp [coreGo, hne, ha]]
      rcases pre with _ | ⟨v, pre'⟩
      · simp [accessLookahead, coreGo, AccessType.ofString?]
      · have hv := hpre' v (by simp)
        have hvne : v ≠ "ACCESS_TO" := by
          rcases hv with h | h
          · subst h; decide
          · obtain ⟨b, hb⟩ := Option.isSome_iff_exists.mp h
            rcases accessOfString_cases hb with h | h | h <;> subst h <;> decide
        rw [show accessLookahead ((v :: pre') ++ "ACCESS_TO" :: rest) = .ACCESS_TYPE by
              simp [accessLookahead, hvne]]
        rw [ih _ hpre']
        simp

/-- Claim C9 witness: READ & WRITE followed by ACCESS_TO collects [READ, WRITE]
and hands over to RESOURCE_TYPE. -/
theorem c9_witness :
    coreGo emptySchema .ACCESS_TYPE (["READ", "&", "WRITE"] ++ "ACCESS_TO" :: ["ISSUES"]) initCtx =
      coreGo emptySchema .RESOURCE_TYPE ["ISSUES"]
        { initCtx with result := { initCtx.result with access_types :=
            initCtx.result.access_types ++ ["READ", "&", "WRITE"].filterMap AccessType.ofString? } } :=
  c9_amended_access_sequence emptySchema ["READ", "&", "WRITE"] ["ISSUES"] initCtx (by decide)


/-- Claim C3 counterexample: the claim's unconditional clause that
conditions[0].logical_operator is the meaningless default AND is false on
a reachable input: a leading OR before the first condition's helper is
accepted in CONDITION_START and updates the pending operator before any
condition exists, so the first condition is tagged OR. -/
theorem c3_counterexample :
    coreInterpret emptySchema
        ["GIVE", "READ", "ACCESS_TO", "ISSUES", "OR", "WITH", "A", "IS", "1"] =
      .ok { command := some .GIVE, access_types := [.READ], resource_type := some .ISSUES
          , conditions := [{ field := "a", operator := .IS, value := .str "1"
                           , field_type := .STRING, logical_operator := .OR }]
          , integration_data := [] } := by
  simp [coreInterpret, coreGo, BaseCommand.ofString?, AccessType.ofString?,
        ResourceType.ofString?, StructuralHelper.ofString?, ConditionOperator.ofString?,
        accessLookahead, Ctx.withField, Ctx.withOp, pyOr, coerce, initCtx, emptySchema,
        pyLower, pyLowerChar]

/-- Claim C3 amended: in the conditions list produced by the interpreter,
for every index i greater than 0, conditions[i].logical_operator records
the AND/OR combinator that joined condition i-1 and condition i, and
conditions[0].logical_operator is the pending logical operator when the
first condition is appended: the default AND, unless leading AND/OR
tokens before the first condition's helper (which the grammar accepts)
updated it, in which case it is the last such combinator.  Proved for an
arbitrary run of leading combinators and an arbitrary chain of joined
conditions. -/
theorem c3_amended_pending_operator (lead js : List LogicalOperator) :
    coreInterpret emptySchema
        ("GIVE" :: "READ" :: "ACCESS_TO" :: "ISSUES" ::
          (lead.map LogicalOperator.value ++ ("WITH" :: "A" :: "IS" :: "1" :: joinChain js))) =
      .ok { command := some .GIVE, access_types := [.READ], resource_type := some .ISSUES
          , conditions := chainCondition (pendingAfter .AND lead) :: js.map chainCondition
          , integration_data := [] } := by
  have hA : pyLower "A" = "a" := rfl
  have h0 : coreInterpret emptySchema
      ("GIVE" :: "READ" :: "ACCESS_TO" :: "ISSUES" ::
        (lead.map LogicalOperator.value ++ ("WITH" :: "A" :: "IS" :: "1" :: joinChain js))) =
      coreGo emptySchema .COMMAND
        ("GIVE" :: "READ" :: "ACCESS_TO" :: "ISSUES" ::
          (lead.map LogicalOperator.value ++ ("WITH" :: "A" :: "IS" :: "1" :: joinChain js)))
        initCtx := by
    simp [coreInterpret]
  rw [h0, c3_entry, c3_lead]
  simp [coreGo, StructuralHelper.ofString?, ConditionOperator.ofString?, Ctx.withField,
        pyOr, emptySchema_map_field, baseCtx, hA, c3_chain, chainCondition]

/-- Claim C3 witness: the amended invariant instantiated with a leading OR
and one AND-joined further condition. -/
theorem c3_witness :
    coreInterpret emptySchema
        ("GIVE" :: "READ" :: "ACCESS_TO" :: "ISSUES" ::
          ([LogicalOperator.OR].map LogicalOperator.value ++
            ("WITH" :: "A" :: "IS" :: "1" :: joinChain [.AND]))) =
      .ok { command := some .GIVE, access_types := [.READ], resource_type := some .ISSUES
          , conditions :=
              chainCondition (pendingAfter .AND [.OR]) :: [LogicalOperator.AND].map chainCondition
          , integration_data := [] } :=
  c3_amended_pending_operator [.OR] [.AND]

/-- Claim C5 witness: the operator-resolution equation instantiated at
GREATER followed by OR EQUAL. -/
theorem c5_witness :
    permGo emptySchema .CONDITION_OPERATOR ("GREATER" :: ["OR", "EQUAL", "3"]) initCtx =
      match resolveOperatorSpec "GREATER" ["OR", "EQUAL", "3"] with
      | some (o, r) => permGo emptySchema .CONDITION_VALUE r (Ctx.withOp initCtx o)
      | none => .error ("Expected a condition operator (IS, CONTAINS, etc.), got " ++ "GREATER") :=
  c5_compound_operators.1 emptySchema "GREATER" ["OR", "EQUAL", "3"] initCtx

/-- Claim C8 witness: the builder validation instantiated at a complete
interpreted statement. -/
theorem c8_witness :
    (∃ ps, SimpleStatementBuilder.build
        { command := some .GIVE, access_types := [.READ], resource_type := some .ISSUES
        , conditions := [], integration_data := [] } = .ok ps) ↔
      (({ command := some .GIVE, access_types := [.READ], resource_type := some .ISSUES
        , conditions := [], integration_data := [] } : InterpretedStatement).command ≠ none
       ∧ ({ command := some .GIVE, access_types := [.READ], resource_type := some .ISSUES
          , conditions := [], integration_data := [] } : InterpretedStatement).access_types ≠ []
       ∧ ({ command := some .GIVE, access_types := [.READ], resource_type := some .ISSUES
          , conditions := [], integration_data := [] } : InterpretedStatement).resource_type ≠ none) :=
  c8_builder_validation
    { command := some .GIVE, access_types := [.READ], resource_type := some .ISSUES
    , conditions := [], integration_data := [] }

end Authed
